import Mathlib

/-!
Verification of the installer-pipeline core of the bnbsolauncher repository.

The four installer classes (SimitoneInstaller, UpdateInstaller, TSOInstaller,
MacExtrasInstaller) are shallowly embedded: each installer's `install()` promise
chain is a pure function from a scenario (which steps succeed or fail) to a run
outcome recording the promise result, whether the temporary download artifact
still exists, the halt flag, and the ordered list of UI notifications emitted.
The self-rescheduling download-progress samplers are embedded as one-tick
functions returning the emitted sample (if any) and whether the timer
reschedules itself.
-/

namespace BnbsoLauncher

/-! ## Locale and message constants

The locale string table is outside the embedded sources; the constants below
stand for the distinct locale entries referenced by the installers. -/

def INSTALLATION_FINISHED : String := "Installation finished"

def FSO_NETWORK_ERROR : String := "Network error: could not download files"

def FSO_FAILED_INSTALLATION : String := "Installation failed"

def TSO_FAILED_INSTALLATION : String := "The Sims Online installation failed"

def EXTRACTING_CLIENT_FILES : String := "Extracting client files"

def INS_IN : String := "Installing in "

/-- Message built by MacExtrasInstaller.error via strFormat(FSO_FAILED_INSTALLATION, 'macOS Extras'). -/
def macExtrasFailMessage : String := FSO_FAILED_INSTALLATION ++ " macOS Extras"

/-- Failure message built by UpdateInstaller.error (contains a download link). -/
def updateFailMessage : String :=
  "Failed to download FreeSO Launcher. Try again later, or download from here."

/-- Rejection message of UpdateInstaller.download when the transfer failed. -/
def UPDATE_NETWORK_ERROR : String :=
  "FreeSO Launcher installation files have failed to download. You can try again later or download it yourself at beta.freeso.org/FreeSO Launcher Setup.exe"

/-! ## Run identifiers and UI progress keys

Every installer constructor sets `this.id = Math.floor(Date.now() / 1000)`:
the construction timestamp in milliseconds, truncated to whole seconds. -/

/-- Run id derived from the construction time in milliseconds (Date.now), as
`Math.floor(Date.now() / 1000)` computes it. -/
def runId (nowMs : Nat) : Nat := nowMs / 1000

/-- UI progress-item key used by SimitoneInstaller: 'FSOProgressItem' + this.id. -/
def simitoneProgressKey (id : Nat) : String := "FSOProgressItem" ++ toString id

/-- UI progress-item key used by MacExtrasInstaller: 'FSOProgressItem' + this.id. -/
def macExtrasProgressKey (id : Nat) : String := "FSOProgressItem" ++ toString id

/-- UI progress-item key used by TSOInstaller: 'TSOProgressItem' + this.id. -/
def tsoProgressKey (id : Nat) : String := "TSOProgressItem" ++ toString id

/-- UI progress-item key used by UpdateInstaller: 'FSOUpdateProgressItem' + this.id. -/
def updateProgressKey (id : Nat) : String := "FSOUpdateProgressItem" ++ toString id

/-! ## Download percentage computations (ProgressTracker)

`dl.getProgress()` / `dl.getProgressMB()` live in the download module, which is
outside the embedded sources; byte counts are modelled in whole megabytes, and
a JavaScript NaN progress value is modelled as `none`. -/

/-- Round a / b to the nearest natural number, halves rounded up, mirroring
`Number.prototype.toFixed(0)` on a nonnegative value (requires b > 0). -/
def natRoundDiv (a b : Nat) : Nat := (2 * a + b) / (2 * b)

/-- Percentage computed inside TSOInstaller.updateDownloadProgress:
`((mb / 1268) * 100).toFixed(0)` guarded by `if (isNaN(p)) p = 0`.
Archive.org omits Content-Length, so the 1268 MB total is hardcoded.
There is no `min(100, _)` clamp in this computation. -/
def tsoProgressPercent (mb : Option Nat) : Nat :=
  match mb with
  | none => 0
  | some m => natRoundDiv (m * 100) 1268

/-- Modelled from the spec: the download module's `getProgress` (the module is
outside the embedded sources). Percentage = `min(100, round(b / t * 100))`;
tolerates `t = 0` by returning 0 instead of dividing by zero. -/
def specProgressPercent (b t : Nat) : Nat :=
  if t = 0 then 0 else min 100 (natRoundDiv (b * 100) t)

/-! ## Progress-sampler ticks

Each installer's `updateDownloadProgress` is a `setTimeout` callback that may
emit one progress sample and may reschedule itself. One tick is embedded as a
function returning `(emitted sample percentage, reschedules)`. -/

/-- One tick of TSOInstaller.updateDownloadProgress (tso.js lines 252-265):
compute the percentage, return immediately when `haltProgress` is set
(no sample, no reschedule), else emit the sample and reschedule. -/
def tsoSamplerTick (mb : Option Nat) (halt : Bool) : Option Nat × Bool :=
  let p := tsoProgressPercent mb
  if halt then (none, false)
  else (some p, true)

/-- One tick of MacExtrasInstaller.updateDownloadProgress (lines 149-166):
NaN progress is coerced to 0; while p < 100 the tick emits a sample only when
`haltProgress` is unset but reschedules itself unconditionally; at p >= 100 it
stops without emitting. -/
def macSamplerTick (progress : Option Nat) (halt : Bool) : Option Nat × Bool :=
  let p := progress.getD 0
  if p < 100 then
    (if halt then none else some p, true)
  else (none, false)

/-- One tick of UpdateInstaller.updateDownloadProgress (lines 135-160): no NaN
guard, so a NaN progress value fails the `p < 100` comparison and the loop
stops; while p < 100 it emits only when `haltProgress` is unset but
reschedules itself unconditionally. -/
def updateSamplerTick (progress : Option Nat) (halt : Bool) : Option Nat × Bool :=
  match progress with
  | none => (none, false)
  | some p =>
    if p < 100 then
      (if halt then none else some p, true)
    else (none, false)

/-! ## UI / notification events

Each installer forwards notifications to the UI boundary
(`addProgressItem` / `stopProgressItem`), modal dialogs, and launcher-state
side effects. The periodic sampler ticks are modelled separately above; run
event logs below record the step-level notifications. -/

inductive UIEvent where
  | addProgressItem (key title subtitle message : String) (percentage : Nat)
  | stopProgressItem (key : String)
  | modalInstalled (component : String)
  | modalFailedInstall (component message : String)
  | modalFailedUpdateDownload
  | updateInstalledPrograms
  | setConfiguration (entry : List String)
  | removeActiveTask (component : String)
  | executeInstaller (file : String)
  deriving DecidableEq, Repr

/-- Number of progress-item events carrying the given message at the given
percentage (used to count terminal failure notifications). -/
def noteCount (msg : String) (pct : Nat) : List UIEvent → Nat
  | [] => 0
  | UIEvent.addProgressItem _ _ _ m p :: rest =>
    (if m = msg ∧ p = pct then 1 else 0) + noteCount msg pct rest
  | _ :: rest => noteCount msg pct rest

/-- Number of stopProgressItem events for the given key. -/
def stopCount (key : String) : List UIEvent → Nat
  | [] => 0
  | UIEvent.stopProgressItem k :: rest =>
    (if k = key then 1 else 0) + stopCount key rest
  | _ :: rest => stopCount key rest

/-- Outcome of one installer run: the `install()` promise result, whether the
temporary download artifact still exists afterwards, the final
`haltProgress` flag, and the ordered step-level notification log. -/
structure RunOutcome where
  result : Except String Unit
  tempExists : Bool
  halt : Bool
  events : List UIEvent
  deriving Repr

/-! ## SimitoneInstaller

Steps (SimitoneInstaller.js): step1 fetches GitHub release info; step2
downloads to `temp/artifacts-simitone-{id}.zip`; step3 creates the install
directory; step4 unzips (its close handler calls `cleanup()`, while its error
handler has the cleanup call commented out); step5 writes the registry entry.
`install()` chains the steps and `.catch`es into `error()`, which returns a
rejected promise. -/

structure SimitoneScenario where
  releaseTag : Option String
  releaseInfoFails : Option String
  downloadFails : Bool
  setupDirFails : Option String
  extractFails : Option String
  registryFails : Option String
  deriving DecidableEq, Repr

/-- Progress item emitted by SimitoneInstaller.createProgressItem. -/
def simitoneProgress (id : Nat) (version path message : String) (pct : Nat) : UIEvent :=
  UIEvent.addProgressItem (simitoneProgressKey id) ("Simitone Client " ++ version)
    ("Installing in " ++ path) message pct

/-- Events emitted by SimitoneInstaller.error: failure progress item at 100,
stopProgressItem, removeActiveTask, failure modal carrying the error. -/
def simitoneErrorEvents (id : Nat) (version path msg : String) : List UIEvent :=
  [ simitoneProgress id version path FSO_FAILED_INSTALLATION 100,
    UIEvent.stopProgressItem (simitoneProgressKey id),
    UIEvent.removeActiveTask "Simitone",
    UIEvent.modalFailedInstall "Simitone" msg ]

/-- Events emitted by SimitoneInstaller.end: finished progress item at 100,
stopProgressItem, installed-programs refresh, removeActiveTask, the version
configuration write when a release tag was found, and the success modal. -/
def simitoneEndEvents (id : Nat) (tag : Option String) (path : String) : List UIEvent :=
  let version := tag.getD ""
  [ simitoneProgress id version path INSTALLATION_FINISHED 100,
    UIEvent.stopProgressItem (simitoneProgressKey id),
    UIEvent.updateInstalledPrograms,
    UIEvent.removeActiveTask "Simitone" ]
  ++ (if version = "" then []
      else [UIEvent.setConfiguration ["Game", "SimitoneVersion", version]])
  ++ [UIEvent.modalInstalled "Simitone"]

/-- One SimitoneInstaller run: `install()` for a given scenario. The temp
artifact is written by the download; the download failure handler calls
`cleanup()` before rejecting, the unzip close handler calls `cleanup()`, but
neither `error()` nor the unzip error handler removes the temp file. -/
def simitoneRun (id : Nat) (path : String) (sc : SimitoneScenario) : RunOutcome :=
  match sc.releaseInfoFails with
  | some msg =>
    { result := Except.error msg, tempExists := false, halt := true,
      events := simitoneErrorEvents id "" path msg }
  | none =>
    let version := sc.releaseTag.getD ""
    if sc.downloadFails then
      { result := Except.error FSO_NETWORK_ERROR, tempExists := false, halt := true,
        events := simitoneErrorEvents id version path FSO_NETWORK_ERROR }
    else
      match sc.setupDirFails with
      | some msg =>
        { result := Except.error msg, tempExists := true, halt := true,
          events := simitoneErrorEvents id version path msg }
      | none =>
        match sc.extractFails with
        | some msg =>
          { result := Except.error msg, tempExists := true, halt := true,
            events := simitoneProgress id version path EXTRACTING_CLIENT_FILES 100
              :: simitoneErrorEvents id version path msg }
        | none =>
          match sc.registryFails with
          | some msg =>
            { result := Except.error msg, tempExists := false, halt := true,
              events := simitoneProgress id version path EXTRACTING_CLIENT_FILES 100
                :: simitoneErrorEvents id version path msg }
          | none =>
            { result := Except.ok (), tempExists := false, halt := false,
              events := simitoneProgress id version path EXTRACTING_CLIENT_FILES 100
                :: simitoneEndEvents id sc.releaseTag path }

/-- First failing step of a Simitone scenario with the message `install()`
rejects with, following the step order of SimitoneInstaller.install. -/
def simitoneFirstFailure (sc : SimitoneScenario) : Option String :=
  match sc.releaseInfoFails with
  | some msg => some msg
  | none =>
    if sc.downloadFails then some FSO_NETWORK_ERROR
    else
      match sc.setupDirFails with
      | some msg => some msg
      | none =>
        match sc.extractFails with
        | some msg => some msg
        | none => sc.registryFails

/-! ## MacExtrasInstaller

Steps: step1 downloads to `strFormat(temp.MacExtras, this.id)`; step2 creates
the install directory; step3 unzips straight into it. Both `end()` and
`error()` call `this.dl.cleanup()` (the download module's cleanup, modelled
from the spec as removing the temp artifact) before notifying. -/

structure MacScenario where
  downloadFails : Bool
  setupDirFails : Option String
  extractFails : Option String
  deriving DecidableEq, Repr

/-- Progress item emitted by MacExtrasInstaller.createProgressItem. -/
def macProgress (id : Nat) (parentComponent path message : String) (pct : Nat) : UIEvent :=
  UIEvent.addProgressItem (macExtrasProgressKey id) (parentComponent ++ " MacExtras")
    (INS_IN ++ path) message pct

/-- Events emitted by MacExtrasInstaller.error (after `dl.cleanup()`). -/
def macErrorEvents (id : Nat) (parentComponent path : String) : List UIEvent :=
  [ macProgress id parentComponent path macExtrasFailMessage 100,
    UIEvent.stopProgressItem (macExtrasProgressKey id) ]

/-- Events emitted by MacExtrasInstaller.end (after `dl.cleanup()`). -/
def macEndEvents (id : Nat) (parentComponent path : String) : List UIEvent :=
  [ macProgress id parentComponent path INSTALLATION_FINISHED 100,
    UIEvent.stopProgressItem (macExtrasProgressKey id) ]

/-- One MacExtrasInstaller run: `install()` for a given scenario. Every
terminal handler (`end` and `error`) removes the temp artifact. -/
def macRun (id : Nat) (parentComponent path : String) (sc : MacScenario) : RunOutcome :=
  if sc.downloadFails then
    { result := Except.error FSO_NETWORK_ERROR, tempExists := false, halt := true,
      events := macErrorEvents id parentComponent path }
  else
    match sc.setupDirFails with
    | some msg =>
      { result := Except.error msg, tempExists := false, halt := true,
        events := macErrorEvents id parentComponent path }
    | none =>
      match sc.extractFails with
      | some msg =>
        { result := Except.error msg, tempExists := false, halt := true,
          events := macErrorEvents id parentComponent path }
      | none =>
        { result := Except.ok (), tempExists := false, halt := false,
          events := macEndEvents id parentComponent path }

/-- First failing step of a MacExtras scenario with its rejection message. -/
def macFirstFailure (sc : MacScenario) : Option String :=
  if sc.downloadFails then some FSO_NETWORK_ERROR
  else
    match sc.setupDirFails with
    | some msg => some msg
    | none => sc.extractFails

/-! ## TSOInstaller

Steps (tso.js): step1 downloads to `temp.TSO.path + '/' + temp.TSO.file`
(the `end` download event always sets `haltProgress = true`); step2 creates
the install directory; step3 unzips into the temp extraction folder; step4
locates the first cabinet (under the nested convention, falling back to the
root-level convention) and extracts the cabinet chain — its completion
callback always runs the unzip cleaner and `dl.cleanup()` before resolving or
rejecting; step5 writes the Maxis registry entry. `end()` and `error()` both
call `dl.cleanup()` again. -/

/-- Modelled from the spec: the first cabinet's path under the primary
(nested installer folder) naming convention — `temp.TSO.firstCab` lives in
the constants module, outside the embedded sources. -/
def firstCabPath : String := "temp/extraction/TSO_Installer/Data1.cab"

/-- Modelled from the spec: the first cabinet's path under the second
(root-level) naming convention — `temp.TSO.rootCab` in the constants module. -/
def rootCabPath : String := "temp/extraction/Data1.cab"

/-- Source path chosen by TSOInstaller.extractCabs (tso.js lines 164-173):
start from the primary convention; if no file exists at that path, fall back
to the root-level convention. The filesystem is the list of existing paths. -/
def chooseCabSource (fs : List String) : String :=
  if fs.contains firstCabPath then firstCabPath else rootCabPath

/-- Whether the chosen cabinet source is missing from the filesystem, in
which case the cabinet extractor signals an extraction error. -/
def cabSourceMissing (fs : List String) : Bool :=
  ! fs.contains (chooseCabSource fs)

/-- Error message the cabinet extractor reports for a missing source archive
(modelled from the spec's ArchiveError description; the cabinet module is
outside the embedded sources). -/
def CAB_MISSING_ERROR : String := "first cabinet not found"

structure TSOScenario where
  downloadFails : Bool
  setupDirFails : Option String
  unzipFails : Option String
  /-- Paths existing in the temp extraction folder when step4 runs. -/
  cabFs : List String
  /-- Extraction error other than a missing source (corrupt chain, bad write). -/
  cabCorrupt : Option String
  registryFails : Option String
  deriving DecidableEq, Repr

/-- Outcome of the cabinet-chain extraction in step4: the error the extractor
reports, if any. -/
def tsoCabError (sc : TSOScenario) : Option String :=
  if cabSourceMissing sc.cabFs then some CAB_MISSING_ERROR else sc.cabCorrupt

/-- Progress item emitted by TSOInstaller.createProgressItem. -/
def tsoProgress (id : Nat) (path message : String) (pct : Nat) : UIEvent :=
  UIEvent.addProgressItem (tsoProgressKey id) "The Sims Online (FilePlanet)"
    (INS_IN ++ path) message pct

/-- Events emitted by TSOInstaller.error (after `dl.cleanup()`). -/
def tsoErrorEvents (id : Nat) (path : String) : List UIEvent :=
  [ tsoProgress id path TSO_FAILED_INSTALLATION 100,
    UIEvent.stopProgressItem (tsoProgressKey id) ]

/-- Events emitted by TSOInstaller.end (after `dl.cleanup()`). -/
def tsoEndEvents (id : Nat) (path : String) : List UIEvent :=
  [ tsoProgress id path INSTALLATION_FINISHED 100,
    UIEvent.stopProgressItem (tsoProgressKey id) ]

/-- Progress item emitted at the start of TSOInstaller.extractZip. -/
def tsoExtractStartEvent (id : Nat) (path : String) : UIEvent :=
  tsoProgress id path "Extracting client files, please wait..." 100

/-- One TSOInstaller run: `install()` for a given scenario. The temp artifact
is removed by `dl.cleanup()` on every path: in the step4 completion callback
and again in `end()`/`error()` (the second call is a no-op). -/
def tsoRun (id : Nat) (path : String) (sc : TSOScenario) : RunOutcome :=
  if sc.downloadFails then
    { result := Except.error FSO_NETWORK_ERROR, tempExists := false, halt := true,
      events := tsoErrorEvents id path }
  else
    match sc.setupDirFails with
    | some msg =>
      { result := Except.error msg, tempExists := false, halt := true,
        events := tsoErrorEvents id path }
    | none =>
      match sc.unzipFails with
      | some msg =>
        { result := Except.error msg, tempExists := false, halt := true,
          events := tsoExtractStartEvent id path :: tsoErrorEvents id path }
      | none =>
        match tsoCabError sc with
        | some cabErr =>
          { result := Except.error ("The Sims Online extraction failed: " ++ cabErr),
            tempExists := false, halt := true,
            events := tsoExtractStartEvent id path :: tsoErrorEvents id path }
        | none =>
          match sc.registryFails with
          | some msg =>
            { result := Except.error msg, tempExists := false, halt := true,
              events := tsoExtractStartEvent id path :: tsoErrorEvents id path }
          | none =>
            { result := Except.ok (), tempExists := false, halt := true,
              events := tsoExtractStartEvent id path :: tsoEndEvents id path }

/-- First failing step of a TSO scenario with its rejection message. -/
def tsoFirstFailure (sc : TSOScenario) : Option String :=
  if sc.downloadFails then some FSO_NETWORK_ERROR
  else
    match sc.setupDirFails with
    | some msg => some msg
    | none =>
      match sc.unzipFails with
      | some msg => some msg
      | none =>
        match tsoCabError sc with
        | some cabErr => some ("The Sims Online extraction failed: " ++ cabErr)
        | none => sc.registryFails

/-! ## UpdateInstaller

A single download step to `temp/installer.exe`. On download failure the
download handler calls `cleanup()` and rejects; `error()` then notifies
without touching the file. On success `end()` notifies and executes the
downloaded installer — the file is intentionally retained. -/

structure UpdateScenario where
  downloadFails : Bool
  deriving DecidableEq, Repr

/-- Progress item emitted by UpdateInstaller.createProgressItem. -/
def updateProgress (id : Nat) (updateLocation message : String) (pct : Nat) : UIEvent :=
  UIEvent.addProgressItem (updateProgressKey id) "FreeSO Launcher"
    ("Downloading from " ++ updateLocation) message pct

/-- One UpdateInstaller run: `install()` for a given scenario. -/
def updateRun (id : Nat) (updateLocation : String) (sc : UpdateScenario) : RunOutcome :=
  if sc.downloadFails then
    { result := Except.error UPDATE_NETWORK_ERROR, tempExists := false, halt := true,
      events := [ updateProgress id updateLocation updateFailMessage 100,
                  UIEvent.stopProgressItem (updateProgressKey id),
                  UIEvent.modalFailedUpdateDownload ] }
  else
    { result := Except.ok (), tempExists := true, halt := false,
      events := [ updateProgress id updateLocation "Download finished. Setup will start..." 100,
                  UIEvent.stopProgressItem (updateProgressKey id),
                  UIEvent.executeInstaller "temp/installer.exe" ] }

/-- Rejection message of an Update scenario, when it fails. -/
def updateFirstFailure (sc : UpdateScenario) : Option String :=
  if sc.downloadFails then some UPDATE_NETWORK_ERROR else none

/-! ## InstallCoordinator (active-task tracking)

`events.js` dispatches UI callbacks to the FSOLauncher coordinator, whose
`removeActiveTask`/admission logic lives outside the embedded sources and is
modelled from the spec. -/

/-- Active-task set: the components with an install currently in progress. -/
structure CoordState where
  activeTasks : Finset String
  deriving DecidableEq

def ALREADY_INSTALLING : String := "AlreadyInstallingError"

/-- Modelled from the spec: `removeActiveTask` clears the component's
active-task marker in the coordinator's ActiveTaskSet. -/
def removeActiveTask (st : CoordState) (component : String) : CoordState :=
  { activeTasks := st.activeTasks.erase component }

/-- Modelled from the spec: `admit(request)` rejects with
AlreadyInstallingError when the ActiveTaskSet already marks the component
active, and otherwise marks it active. -/
def admitInstall (st : CoordState) (component : String) : Except String CoordState :=
  if component ∈ st.activeTasks then Except.error ALREADY_INSTALLING
  else Except.ok { activeTasks := insert component st.activeTasks }

/-- The CHANGE_GAME_PATH confirmation callback (events.js lines 223-231):
when the user confirms, the coordinator proceeds to `changeGamePath` (which
starts a pipeline, outside this claim); when the user declines, the
coordinator explicitly clears the component's active-task marker. Returns the
new state and whether a pipeline gets started. -/
def onChangeGamePath (st : CoordState) (yes : Bool) (component : String) :
    CoordState × Bool :=
  if yes then (st, true)
  else (removeActiveTask st component, false)

/-! ## Temp-artifact cleanup

SimitoneInstaller.cleanup, UpdateInstaller.cleanup and
MacExtrasInstaller.cleanup share one shape: `fs.stat(tempPath, err => { if
(err) return; fs.unlink(tempPath, ...) })` — stat the file, return on a stat
error, otherwise unlink. The filesystem is the finite set of existing
paths. -/

/-- The stat-guarded unlink performed by the installers' `cleanup()`. -/
def cleanupTemp (tempPath : String) (fs : Finset String) : Finset String :=
  if tempPath ∈ fs then fs.erase tempPath else fs

/-! ## Installed-state probes

TSOInstaller.isInstalledInPath stats `path + '/TSOClient/TSOClient.exe'` and
resolves `err === null`; SimitoneInstaller.isInstalledInPath stats
`path + '\\Simitone.Windows.exe'` and resolves `err == null`. Neither ever
rejects. The promise outcome is an `Except` value; `statErr` is the error the
stat callback receives (`none` for a successful stat). -/

/-- Probe executable path used by TSOInstaller.isInstalledInPath. -/
def tsoProbePath (path : String) : String := path ++ "/TSOClient/TSOClient.exe"

/-- Probe executable path used by SimitoneInstaller.isInstalledInPath. -/
def simitoneProbePath (path : String) : String := path ++ "\\Simitone.Windows.exe"

/-- Stat error produced by the filesystem for a path: `none` when the path
exists, an ENOENT error otherwise. -/
def statErrOn (fs : Finset String) (p : String) : Option String :=
  if p ∈ fs then none else some "ENOENT"

/-- TSOInstaller.isInstalledInPath's promise: resolves `err === null` for
whatever error the stat callback received; never rejects. -/
def isInstalledInPathTSO (statErr : Option String) : Except String Bool :=
  Except.ok statErr.isNone

/-- SimitoneInstaller.isInstalledInPath's promise: resolves `err == null`;
never rejects. -/
def isInstalledInPathSimitone (statErr : Option String) : Except String Bool :=
  Except.ok statErr.isNone

/-! ## Helper lemmas -/

theorem noteCount_append (msg : String) (pct : Nat) (l₁ l₂ : List UIEvent) :
    noteCount msg pct (l₁ ++ l₂) = noteCount msg pct l₁ + noteCount msg pct l₂ := by
  induction l₁ with
  | nil => simp [noteCount]
  | cons e rest ih =>
    cases e <;> simp [noteCount, ih, Nat.add_assoc]

theorem stopCount_append (key : String) (l₁ l₂ : List UIEvent) :
    stopCount key (l₁ ++ l₂) = stopCount key l₁ + stopCount key l₂ := by
  induction l₁ with
  | nil => simp [stopCount]
  | cons e rest ih =>
    cases e <;> simp [stopCount, ih, Nat.add_assoc]

/-! ## Claim C1: temp-artifact removal at terminal states -/

/-- C1 counterexample: a Simitone run whose extraction step fails reaches the
Failed terminal state with the temporary download artifact still existing —
the unzip error handler's cleanup call is commented out and `error()` never
removes the temp file, refuting the claim that the failure path always
removes it. -/
theorem simitone_failure_leaves_temp_artifact :
    (simitoneRun 1 "game"
      { releaseTag := none, releaseInfoFails := none, downloadFails := false,
        setupDirFails := none, extractFails := some "zip corrupt",
        registryFails := none }).result = Except.error "zip corrupt"
    ∧ (simitoneRun 1 "game"
      { releaseTag := none, releaseInfoFails := none, downloadFails := false,
        setupDirFails := none, extractFails := some "zip corrupt",
        registryFails := none }).tempExists = true :=
  ⟨rfl, rfl⟩

/-- C1 amended: MacExtras and TSO runs remove the temporary download artifact
at both terminal states; an Update run removes it on download failure but
intentionally retains the downloaded installer on success (to execute it); a
Simitone run leaves the temp artifact on disk exactly when the download
succeeded and the directory-setup or extraction step failed. -/
theorem temp_artifact_removal_by_installer (id : Nat) (parent path loc : String)
    (msc : MacScenario) (tsc : TSOScenario) (usc : UpdateScenario)
    (ssc : SimitoneScenario) :
    (macRun id parent path msc).tempExists = false
    ∧ (tsoRun id path tsc).tempExists = false
    ∧ (updateRun id loc usc).tempExists = !usc.downloadFails
    ∧ (simitoneRun id path ssc).tempExists =
        (ssc.releaseInfoFails.isNone && !ssc.downloadFails
          && (ssc.setupDirFails.isSome || ssc.extractFails.isSome)) := by
  refine ⟨?_, ?_, ?_, ?_⟩
  · rcases msc with ⟨dl, su, ex⟩
    cases dl <;> cases su <;> cases ex <;> simp [macRun]
  · simp only [tsoRun]
    repeat' split
    all_goals rfl
  · cases h : usc.downloadFails <;> simp [updateRun, h]
  · rcases ssc with ⟨tag, rel, dl, su, ex, reg⟩
    cases rel <;> cases dl <;> cases su <;> cases ex <;> cases reg <;>
      simp [simitoneRun]

/-! ## Claim C5: exactly one stopProgressItem per run -/

/-- C5: every run of each of the four installers emits exactly one terminal
`stopProgressItem` notification for its own run key — once from `end()` when
the run finalizes and once from `error()` when it fails, never zero and never
more than one. -/
theorem stop_progress_item_once_per_run (id : Nat) (parent path loc : String)
    (msc : MacScenario) (tsc : TSOScenario) (usc : UpdateScenario)
    (ssc : SimitoneScenario) :
    stopCount (simitoneProgressKey id) (simitoneRun id path ssc).events = 1
    ∧ stopCount (macExtrasProgressKey id) (macRun id parent path msc).events = 1
    ∧ stopCount (tsoProgressKey id) (tsoRun id path tsc).events = 1
    ∧ stopCount (updateProgressKey id) (updateRun id loc usc).events = 1 := by
  refine ⟨?_, ?_, ?_, ?_⟩
  · rcases ssc with ⟨tag, rel, dl, su, ex, reg⟩
    cases rel <;> cases dl <;> cases su <;> cases ex <;> cases reg <;>
      simp [simitoneRun, simitoneErrorEvents, simitoneEndEvents, simitoneProgress,
        stopCount, stopCount_append] <;>
      split <;> simp [stopCount]
  · rcases msc with ⟨dl, su, ex⟩
    cases dl <;> cases su <;> cases ex <;>
      simp [macRun, macErrorEvents, macEndEvents, macProgress, stopCount]
  · simp only [tsoRun]
    repeat' split
    all_goals
      simp [tsoErrorEvents, tsoEndEvents, tsoProgress, tsoExtractStartEvent, stopCount]
  · cases h : usc.downloadFails <;>
      simp [updateRun, h, updateProgress, stopCount]

/-! ## Claim C2: halting the progress sampler -/

/-- C2 counterexample: a MacExtras sampler tick observed with
`haltProgress = true` and progress below 100 emits nothing but still
reschedules itself, refuting the claim that the self-rescheduling timer stops
scheduling once the halt flag is observed. -/
theorem mac_sampler_reschedules_after_halt :
    macSamplerTick (some 50) true = (none, true) := by decide

/-- C2 amended: once `haltProgress` is set no sampler emits any further
progress sample; the TSO sampler also stops rescheduling immediately, but the
MacExtras and Update samplers keep rescheduling (silently) while the reported
progress is below 100, stopping only when progress reaches 100 (or, for the
Update sampler, when the progress value is NaN). -/
theorem sampler_halt_behaviour (mb progress : Option Nat) (p : Nat) :
    tsoSamplerTick mb true = (none, false)
    ∧ macSamplerTick progress true = (none, decide (progress.getD 0 < 100))
    ∧ updateSamplerTick (some p) true = (none, decide (p < 100))
    ∧ updateSamplerTick none true = (none, false) := by
  refine ⟨rfl, ?_, ?_, rfl⟩
  · by_cases h : progress.getD 0 < 100 <;> simp [macSamplerTick, h]
  · by_cases h : p < 100 <;> simp [updateSamplerTick, h]

/-! ## Claim C3: download percentage computation -/

/-- C3 counterexample: the TSO percentage computation has no `min(100, _)`
clamp, so at 2536 MB transferred against the hardcoded nominal total of
1268 MB it evaluates to 200, not `min(100, round(2536 / 1268 * 100)) = 100`,
and lies outside [0, 100]. -/
theorem tso_percent_exceeds_100 :
    tsoProgressPercent (some 2536) = 200
    ∧ min 100 (natRoundDiv (2536 * 100) 1268) = 100
    ∧ (200 : Nat) ≠ 100 ∧ ¬ (200 : Nat) ≤ 100 := by decide

/-- C3 amended: the downloader's own percentage (modelled from the spec)
equals `min(100, round(b / t * 100))`, is 0 when the total is 0, always lies
in [0, 100] and is monotone in the transferred bytes; the TSO installer's
in-line computation instead equals the unclamped `round(mb / 1268 * 100)`
(0 when the value is NaN) and can therefore exceed 100. -/
theorem progress_percent_spec (b t d m : Nat) :
    specProgressPercent b 0 = 0
    ∧ specProgressPercent b t ≤ 100
    ∧ specProgressPercent b t = (if t = 0 then 0 else min 100 (natRoundDiv (b * 100) t))
    ∧ specProgressPercent b t ≤ specProgressPercent (b + d) t
    ∧ tsoProgressPercent none = 0
    ∧ tsoProgressPercent (some m) = natRoundDiv (m * 100) 1268 := by
  refine ⟨rfl, ?_, rfl, ?_, rfl, rfl⟩
  · by_cases h : t = 0 <;> simp [specProgressPercent, h]
  · by_cases h : t = 0
    · simp [specProgressPercent, h]
    · simp only [specProgressPercent, h, if_false]
      refine min_le_min le_rfl ?_
      apply Nat.div_le_div_right
      omega

/-! ## Claim C4: step failures are caught, notified once, and rethrown -/

/-- C4: for every run of each installer, a step failure is caught at the
`install()` boundary: the run emits exactly one terminal failure progress
notification at 100%, and `install()` rejects with the failing step's
human-readable message (`end()` is never reached, so the run never resolves
successfully after a step failure); a run without step failures resolves. -/
theorem install_error_propagation (id : Nat) (parent path loc : String)
    (msc : MacScenario) (tsc : TSOScenario) (usc : UpdateScenario)
    (ssc : SimitoneScenario) :
    ((simitoneRun id path ssc).result =
      (match simitoneFirstFailure ssc with
       | some m => Except.error m
       | none => Except.ok ()))
    ∧ noteCount FSO_FAILED_INSTALLATION 100 (simitoneRun id path ssc).events
        = (if (simitoneFirstFailure ssc).isSome then 1 else 0)
    ∧ ((macRun id parent path msc).result =
      (match macFirstFailure msc with
       | some m => Except.error m
       | none => Except.ok ()))
    ∧ noteCount macExtrasFailMessage 100 (macRun id parent path msc).events
        = (if (macFirstFailure msc).isSome then 1 else 0)
    ∧ ((tsoRun id path tsc).result =
      (match tsoFirstFailure tsc with
       | some m => Except.error m
       | none => Except.ok ()))
    ∧ noteCount TSO_FAILED_INSTALLATION 100 (tsoRun id path tsc).events
        = (if (tsoFirstFailure tsc).isSome then 1 else 0)
    ∧ ((updateRun id loc usc).result =
      (match updateFirstFailure usc with
       | some m => Except.error m
       | none => Except.ok ()))
    ∧ noteCount updateFailMessage 100 (updateRun id loc usc).events
        = (if (updateFirstFailure usc).isSome then 1 else 0) := by
  refine ⟨?_, ?_, ?_, ?_, ?_, ?_, ?_, ?_⟩
  · rcases ssc with ⟨tag, rel, dl, su, ex, reg⟩
    cases rel <;> cases dl <;> cases su <;> cases ex <;> cases reg <;>
      simp [simitoneRun, simitoneFirstFailure]
  · rcases ssc with ⟨tag, rel, dl, su, ex, reg⟩
    cases rel <;> cases dl <;> cases su <;> cases ex <;> cases reg <;>
      simp [simitoneRun, simitoneFirstFailure, simitoneErrorEvents,
        simitoneEndEvents, simitoneProgress, noteCount, noteCount_append,
        FSO_FAILED_INSTALLATION, INSTALLATION_FINISHED, EXTRACTING_CLIENT_FILES] <;>
      split <;> simp [noteCount]
  · rcases msc with ⟨dl, su, ex⟩
    cases dl <;> cases su <;> cases ex <;> simp [macRun, macFirstFailure]
  · rcases msc with ⟨dl, su, ex⟩
    cases dl <;> cases su <;> cases ex <;>
      simp [macRun, macFirstFailure, macErrorEvents, macEndEvents, macProgress,
        noteCount, macExtrasFailMessage, FSO_FAILED_INSTALLATION,
        INSTALLATION_FINISHED]
  · rcases tsc with ⟨dl, su, uz, fs, cor, reg⟩
    cases dl <;> cases su <;> cases uz <;> cases reg <;>
      cases hm : cabSourceMissing fs <;> cases cor <;>
      simp [tsoRun, tsoFirstFailure, tsoCabError, hm]
  · rcases tsc with ⟨dl, su, uz, fs, cor, reg⟩
    cases dl <;> cases su <;> cases uz <;> cases reg <;>
      cases hm : cabSourceMissing fs <;> cases cor <;>
      simp [tsoRun, tsoFirstFailure, tsoCabError, hm, tsoErrorEvents,
        tsoEndEvents, tsoProgress, tsoExtractStartEvent, noteCount,
        TSO_FAILED_INSTALLATION, INSTALLATION_FINISHED]
  · cases h : usc.downloadFails <;> simp [updateRun, updateFirstFailure, h]
  · cases h : usc.downloadFails <;>
      simp [updateRun, updateFirstFailure, h, updateProgress, noteCount,
        updateFailMessage]

/-! ## Claim C6: uniqueness of run identifiers -/

/-- C6 counterexample: a Simitone run constructed at 5000 ms and a MacExtras
run constructed at 5500 ms are distinct runs of distinct components, yet both
get run id `Math.floor(Date.now() / 1000) = 5` and — since both installers
build their UI key as 'FSOProgressItem' + id — address the same UI progress
row. -/
theorem same_second_runs_share_progress_key :
    (5000 : Nat) ≠ 5500
    ∧ simitoneProgressKey (runId 5000) = macExtrasProgressKey (runId 5500) := by
  refine ⟨by decide, rfl⟩

/-- C6 amended: run identifiers are the construction timestamp truncated to
whole seconds, so they are not unique per run: any two runs constructed
within the same second receive the same id, and a Simitone and a MacExtras
run share the 'FSOProgressItem' key prefix, so their UI progress rows
collide whenever their ids coincide. -/
theorem same_second_key_collision (t₁ t₂ : Nat) (h : runId t₁ = runId t₂) :
    simitoneProgressKey (runId t₁) = macExtrasProgressKey (runId t₂) := by
  rw [h]; rfl

/-- Witness for the amended C6 statement at construction times 7000 ms and
7999 ms. -/
theorem same_second_key_collision_witness :
    runId 7000 = runId 7999
    ∧ simitoneProgressKey (runId 7000) = macExtrasProgressKey (runId 7999) :=
  ⟨by decide, same_second_key_collision 7000 7999 (by decide)⟩

/-! ## Claim C7: cabinet-chain first-cabinet fallback -/

/-- C7: the cabinet extractor looks for the first cabinet under the primary
naming convention and falls back to the root-level convention when no file
exists at the primary path; a missing-source extraction error arises exactly
when the first cabinet exists under neither convention. -/
theorem cab_fallback_locating (fs : List String) :
    (fs.contains firstCabPath = true → chooseCabSource fs = firstCabPath)
    ∧ (fs.contains firstCabPath = false → chooseCabSource fs = rootCabPath)
    ∧ cabSourceMissing fs
        = (!fs.contains firstCabPath && !fs.contains rootCabPath) := by
  refine ⟨?_, ?_, ?_⟩
  · intro h
    have hm : firstCabPath ∈ fs := by simpa using h
    simp [chooseCabSource, hm]
  · intro h
    have hm : firstCabPath ∉ fs := by simpa using h
    simp [chooseCabSource, hm]
  · cases h : fs.contains firstCabPath
    · have hm : firstCabPath ∉ fs := by simpa using h
      simp [cabSourceMissing, chooseCabSource, hm]
    · have hm : firstCabPath ∈ fs := by simpa using h
      simp [cabSourceMissing, chooseCabSource, hm]

/-- Witness for C7 on concrete filesystems: with only the root-level cabinet
present the fallback path is chosen and no missing-source error arises; with
neither present the extractor errors. -/
theorem cab_fallback_locating_witness :
    chooseCabSource [rootCabPath] = rootCabPath
    ∧ cabSourceMissing [rootCabPath] = false
    ∧ cabSourceMissing [] = true := by
  refine ⟨(cab_fallback_locating [rootCabPath]).2.1 (by decide), ?_, ?_⟩
  · rw [(cab_fallback_locating [rootCabPath]).2.2]; decide
  · rw [(cab_fallback_locating []).2.2]; decide

/-! ## Claim C8: declining a pre-start confirmation clears the marker -/

/-- C8: when the user declines the CHANGE_GAME_PATH confirmation dialog, no
pipeline is started and the component's active-task marker is explicitly
cleared, so a subsequent admission for that component succeeds instead of
being rejected as already installing. -/
theorem decline_clears_active_marker (st : CoordState) (component : String) :
    (onChangeGamePath st false component).2 = false
    ∧ component ∉ (onChangeGamePath st false component).1.activeTasks
    ∧ admitInstall (onChangeGamePath st false component).1 component
        = Except.ok
            ⟨insert component (onChangeGamePath st false component).1.activeTasks⟩ := by
  refine ⟨rfl, ?_, ?_⟩
  · simp [onChangeGamePath, removeActiveTask]
  · simp [admitInstall, onChangeGamePath, removeActiveTask]

/-! ## Claim C9: idempotent temp-artifact cleanup -/

/-- C9: the stat-guarded cleanup is idempotent: when the temp file does not
exist (for instance because a previous cleanup already removed it, as on the
TSO failure path after cabinet extraction cleaned up) the stat guard makes it
a no-op, so cleaning up twice leaves the filesystem exactly as cleaning up
once does. -/
theorem cleanup_idempotent (tempPath : String) (fs : Finset String) :
    cleanupTemp tempPath (cleanupTemp tempPath fs) = cleanupTemp tempPath fs
    ∧ cleanupTemp tempPath (fs.erase tempPath) = fs.erase tempPath := by
  constructor
  · by_cases h : tempPath ∈ fs
    · simp [cleanupTemp, h]
    · simp [cleanupTemp, h]
  · simp [cleanupTemp]

/-! ## Claim C10: the installed-state probe always resolves -/

/-- C10: `isInstalledInPath` never rejects — it always resolves to a boolean —
and it resolves `true` exactly when the component's probe executable exists at
its fixed sub-path under the destination, resolving `false` on any stat
error. -/
theorem is_installed_probe_resolves (statErr : Option String)
    (fs : Finset String) (path : String) :
    (∃ b, isInstalledInPathTSO statErr = Except.ok b)
    ∧ (∃ b, isInstalledInPathSimitone statErr = Except.ok b)
    ∧ isInstalledInPathTSO (statErrOn fs (tsoProbePath path))
        = Except.ok (decide (tsoProbePath path ∈ fs))
    ∧ isInstalledInPathSimitone (statErrOn fs (simitoneProbePath path))
        = Except.ok (decide (simitoneProbePath path ∈ fs)) := by
  refine ⟨⟨statErr.isNone, rfl⟩, ⟨statErr.isNone, rfl⟩, ?_, ?_⟩
  · by_cases h : tsoProbePath path ∈ fs <;>
      simp [isInstalledInPathTSO, statErrOn, h]
  · by_cases h : simitoneProbePath path ∈ fs <;>
      simp [isInstalledInPathSimitone, statErrOn, h]

end BnbsoLauncher
